import Mathlib

/-!
Verification of the CGPA-calculator grade computation engine.

The TypeScript sources (`frontend/lib/calculator.ts`, `frontend/lib/statistics.ts`,
`frontend/lib/intrasemester.ts`, `frontend/lib/chartData.ts`) are shallowly embedded
below.  JavaScript numbers are modelled as rationals (`ℚ`); `null`/`undefined`
fields become `Option`; JS `Math.round` is `⌊x + 1/2⌋` (round half toward +∞),
matching JS semantics on all rationals.  Message strings produced by the target
solvers are abstracted into their decision tier (the branch of the if/else chain
that selects the message text); the text itself is presentation.
-/

namespace CGPA

/-- JS `Math.round`: rounds to the nearest integer, halves toward +∞. -/
def jsRound (q : ℚ) : ℤ := ⌊q + 1/2⌋

/-- The source's `roundForDisplay(value, 2)` on a non-null number:
`Math.round(value * 100) / 100`. -/
def roundForDisplay2 (q : ℚ) : ℚ := (jsRound (q * 100) : ℚ) / 100

/-- The source's `roundForDisplay` on a nullable number: `null` stays `null`. -/
def roundForDisplay (q : Option ℚ) : Option ℚ := q.map roundForDisplay2

/-- JS `x || d` on numbers (`0` is falsy, every other rational is truthy). -/
def jsOr (x d : ℚ) : ℚ := if x = 0 then d else x

/-- JS `.toUpperCase()` at the character-list level. -/
def jsToUpper (s : String) : String := ⟨s.data.map Char.toUpper⟩

/-- JS `.trim()`: strip leading and trailing whitespace. -/
def jsTrim (s : String) : String :=
  ⟨((s.data.dropWhile Char.isWhitespace).reverse.dropWhile Char.isWhitespace).reverse⟩

/-- Course record (`types/schema.ts` `CourseSchema`); only the fields read by the
computation engine are kept (`code`, `name`, `credits`, `grade`, `marks`,
`gradePoint`).  `gradePoint = none` models `null`/`undefined` ("not yet graded"). -/
structure Course where
  code : Option String := none
  name : String := ""
  credits : ℚ := 0
  grade : Option String := none
  marks : Option ℚ := none
  gradePoint : Option ℚ := none
deriving DecidableEq

/-- Semester record (`SemesterSchema` plus the `manualGPA`/`manualCredits`
override pair that the calculator reads). -/
structure Semester where
  id : String := ""
  name : String := ""
  courses : List Course := []
  order : ℚ := 0
  manualGPA : Option ℚ := none
  manualCredits : Option ℚ := none
deriving DecidableEq

/-- Session metadata; only `scale` is read by the engine. -/
structure SessionMetadata where
  scale : ℚ := 10
deriving DecidableEq

/-- Session: the full academic record. -/
structure Session where
  semesters : List Semester := []
  metadata : SessionMetadata := {}
deriving DecidableEq

/-- One row of a grade template (`GradeMappingSchema`). -/
structure GradeMapping where
  minMarks : ℚ
  maxMarks : ℚ
  letterGrade : String
  gradePoint : ℚ
deriving DecidableEq

instance : Inhabited GradeMapping := ⟨⟨0, 0, "", 0⟩⟩

/-- Grade template (`GradeTemplateSchema`). -/
structure GradeTemplate where
  name : String
  scale : ℚ
  mappings : List GradeMapping
deriving DecidableEq

/-- `BIT_MESRA_10_POINT` from `calculator.ts`. -/
def BIT_MESRA_10_POINT : GradeTemplate :=
  { name := "BIT Mesra 10-Point"
    scale := 10
    mappings :=
      [ ⟨91, 100, "A+/O", 10⟩
      , ⟨81, 90, "A", 9⟩
      , ⟨71, 80, "B", 8⟩
      , ⟨61, 70, "C", 7⟩
      , ⟨51, 60, "D", 6⟩
      , ⟨41, 50, "E", 5⟩
      , ⟨0, 40, "F", 0⟩ ] }

/-- `STANDARD_4_POINT` from `calculator.ts`. -/
def STANDARD_4_POINT : GradeTemplate :=
  { name := "Standard 4-Point"
    scale := 4
    mappings :=
      [ ⟨93, 100, "A+", 4⟩
      , ⟨90, 92, "A", 4⟩
      , ⟨87, 89, "A-", 37/10⟩
      , ⟨83, 86, "B+", 33/10⟩
      , ⟨80, 82, "B", 3⟩
      , ⟨77, 79, "B-", 27/10⟩
      , ⟨73, 76, "C+", 23/10⟩
      , ⟨70, 72, "C", 2⟩
      , ⟨67, 69, "C-", 17/10⟩
      , ⟨63, 66, "D+", 13/10⟩
      , ⟨60, 62, "D", 1⟩
      , ⟨0, 59, "F", 0⟩ ] }

/-- The `LETTER_TO_POINTS_10` fallback lookup table; a missing key yields `0.0`
(the `?? 0.0` in the source). -/
def LETTER_TO_POINTS_10 (g : String) : ℚ :=
  if g = "A+/O" then 10 else if g = "A+" then 10 else if g = "O" then 10
  else if g = "A" then 9 else if g = "B" then 8 else if g = "C" then 7
  else if g = "D" then 6 else if g = "E" then 5 else if g = "F" then 0 else 0

/-- The `LETTER_TO_POINTS_4` fallback lookup table; a missing key yields `0.0`. -/
def LETTER_TO_POINTS_4 (g : String) : ℚ :=
  if g = "A+" then 4 else if g = "A" then 4 else if g = "A-" then 37/10
  else if g = "B+" then 33/10 else if g = "B" then 3 else if g = "B-" then 27/10
  else if g = "C+" then 23/10 else if g = "C" then 2 else if g = "C-" then 17/10
  else if g = "D+" then 13/10 else if g = "D" then 1 else if g = "D-" then 7/10
  else if g = "F" then 0 else 0

/-- The scan loop of `convertMarksToGrade`: first mapping whose
`[minMarks, maxMarks]` interval contains `marks`. -/
def findMapping (marks : ℚ) : List GradeMapping → Option GradeMapping
  | [] => none
  | m :: rest =>
    if m.minMarks ≤ marks ∧ marks ≤ m.maxMarks then some m else findMapping marks rest

/-- `convertMarksToGrade(marks, template)`: first matching mapping in declaration
order, defaulting to the template's last mapping's letter. -/
def convertMarksToGrade (marks : ℚ) (template : GradeTemplate) : String :=
  match findMapping marks template.mappings with
  | some m => m.letterGrade
  | none => (template.mappings.getLastD default).letterGrade

/-- The `template.mappings.find` loop of `convertGradeToPoints`: first mapping
whose upper-cased letter equals the (already upper-cased) grade. -/
def findByLetter (upper : String) : List GradeMapping → Option GradeMapping
  | [] => none
  | m :: rest => if jsToUpper m.letterGrade = upper then some m else findByLetter upper rest

/-- `convertGradeToPoints(grade, scale, template?)`. -/
def convertGradeToPoints (grade : String) (scale : ℚ) (template : Option GradeTemplate) : ℚ :=
  let upperGrade := jsTrim (jsToUpper grade)
  let fallback := if scale = 10 then LETTER_TO_POINTS_10 upperGrade
                  else LETTER_TO_POINTS_4 upperGrade
  match template with
  | some t =>
    match findByLetter upperGrade t.mappings with
    | some m => m.gradePoint
    | none => fallback
  | none => fallback

/-- One iteration of the `calculateGPA` loop: skip a course without a grade
point or with zero credits, otherwise add `gradePoint * credits` to the points
and `credits` to the credits. -/
def gpaStep (acc : ℚ × ℚ) (c : Course) : ℚ × ℚ :=
  match c.gradePoint with
  | none => acc
  | some gp => if c.credits = 0 then acc else (acc.1 + gp * c.credits, acc.2 + c.credits)

/-- The accumulation loop of `calculateGPA`: running `(totalPoints, totalCredits)`
over the courses, skipping those without a grade point and those with zero credits. -/
def calculateGPAacc (courses : List Course) : ℚ × ℚ :=
  courses.foldl gpaStep (0, 0)

/-- `calculateGPA(courses)`: `null` when the accumulated credits are zero,
otherwise the weighted average. -/
def calculateGPA (courses : List Course) : Option ℚ :=
  let t := calculateGPAacc courses
  if t.2 = 0 then none else some (t.1 / t.2)

/-- Per-semester contribution of the `calculateCGPA` loop: course accumulation
when the course list is non-empty, else the manual override when `manualGPA`
and `manualCredits` are both set and `manualCredits > 0`, else nothing. -/
def semesterAccum (s : Semester) : ℚ × ℚ :=
  if s.courses ≠ [] then calculateGPAacc s.courses
  else
    match s.manualGPA, s.manualCredits with
    | some g, some c => if 0 < c then (g * c, c) else (0, 0)
    | _, _ => (0, 0)

/-- `calculateCGPA(semesters)`. -/
def calculateCGPA (semesters : List Semester) : Option ℚ :=
  let totalPoints := (semesters.map (fun s => (semesterAccum s).1)).sum
  let totalCredits := (semesters.map (fun s => (semesterAccum s).2)).sum
  if totalCredits = 0 then none else some (totalPoints / totalCredits)

/-- Result shape of `getSemesterGPA`. -/
structure EffectiveGPA where
  gpa : Option ℚ
  isManual : Bool
deriving DecidableEq

/-- `getSemesterGPA(semester)`: course-based when courses exist, else the manual
override, else `null`. -/
def getSemesterGPA (s : Semester) : EffectiveGPA :=
  if s.courses ≠ [] then ⟨calculateGPA s.courses, false⟩
  else
    match s.manualGPA with
    | some g => ⟨some g, true⟩
    | none => ⟨none, false⟩

/-- `getSemesterCredits(semester)`: sum of course credits when courses exist
(`c.credits || 0` is the identity on rationals with credits `0`), else
`manualCredits` when set, else `0`. -/
def getSemesterCredits (s : Semester) : ℚ :=
  if s.courses ≠ [] then s.courses.foldl (fun acc c => acc + jsOr c.credits 0) 0
  else s.manualCredits.getD 0

/-- Trend classification values of `calculateStatistics`. -/
inductive Trend
  | improving
  | declining
  | stable
  | unknown
deriving DecidableEq

/-- Statistics record returned by `calculateStatistics`; `gradeDistribution`
models the JS object as an insertion-ordered association list. -/
structure Statistics where
  totalCourses : ℕ
  totalCredits : ℚ
  averageCreditsPerSemester : ℚ
  highestSemesterGPA : Option ℚ
  lowestSemesterGPA : Option ℚ
  gradeDistribution : List (String × ℕ)
  trendDirection : Trend
deriving DecidableEq

/-- Truthiness of `course.grade` in JS: present and non-empty. -/
def truthyGrade (c : Course) : Option String :=
  match c.grade with
  | some g => if g = "" then none else some g
  | none => none

/-- JS `distribution[grade] = (distribution[grade] || 0) + 1` on an
insertion-ordered object: increment an existing key or append a new one. -/
def bump : List (String × ℕ) → String → List (String × ℕ)
  | [], g => [(g, 1)]
  | (k, n) :: rest, g => if k = g then (k, n + 1) :: rest else (k, n) :: bump rest g

/-- One course's contribution to the grade distribution: bump its truthy grade,
if any. -/
def courseStep (d : List (String × ℕ)) (c : Course) : List (String × ℕ) :=
  match truthyGrade c with
  | some g => bump d g
  | none => d

/-- Inner loop of the grade-distribution accumulation: count every truthy
`course.grade` of one semester into the running distribution. -/
def distStep (dist : List (String × ℕ)) (s : Semester) : List (String × ℕ) :=
  s.courses.foldl courseStep dist

/-- Loop state of the `semesters.forEach` in `calculateStatistics`. -/
structure StatsAcc where
  totalCourses : ℕ
  totalCredits : ℚ
  dist : List (String × ℕ)
  gpas : List ℚ
  withData : ℕ
deriving DecidableEq

/-- One iteration of the `calculateStatistics` loop. -/
def statsStep (st : StatsAcc) (semester : Semester) : StatsAcc :=
  let e := getSemesterGPA semester
  let credits := getSemesterCredits semester
  { totalCourses := st.totalCourses + semester.courses.length
    totalCredits := st.totalCredits + credits
    dist := distStep st.dist semester
    gpas := match e.gpa with | some g => st.gpas ++ [g] | none => st.gpas
    withData := st.withData + (if e.gpa.isSome then 1 else 0) }

/-- The trend block of `calculateStatistics`: `slice(-3)`, split at
`floor(n/2)`, compare means against the fixed `0.2` margin. -/
def trendOf (gpas : List ℚ) : Trend :=
  if 2 ≤ gpas.length then
    let recent := gpas.drop (gpas.length - 3)
    let firstHalf := recent.take (recent.length / 2)
    let secondHalf := recent.drop (recent.length / 2)
    let avgFirst := firstHalf.sum / (firstHalf.length : ℚ)
    let avgSecond := secondHalf.sum / (secondHalf.length : ℚ)
    if avgFirst + 1/5 < avgSecond then .improving
    else if avgSecond < avgFirst - 1/5 then .declining
    else .stable
  else .unknown

/-- `calculateStatistics(session)` from `statistics.ts`. -/
def calculateStatistics (session : Session) : Statistics :=
  let st := session.semesters.foldl statsStep ⟨0, 0, [], [], 0⟩
  let highestSemesterGPA := st.gpas.max?
  let lowestSemesterGPA := st.gpas.min?
  let averageCreditsPerSemester :=
    if 0 < st.withData then st.totalCredits / (st.withData : ℚ) else 0
  { totalCourses := st.totalCourses
    totalCredits := st.totalCredits
    averageCreditsPerSemester := jsOr (roundForDisplay2 averageCreditsPerSemester) 0
    highestSemesterGPA := roundForDisplay highestSemesterGPA
    lowestSemesterGPA := roundForDisplay lowestSemesterGPA
    gradeDistribution := st.dist
    trendDirection := trendOf st.gpas }

/-- Decision tier of the `calculateTargetGPA` message if/else chain. -/
inductive TargetTier
  | notAchievableExceedsMax
  | targetAlreadyAchieved
  | veryChallenging
  | achievableWithEffort
  | easilyAchievable
deriving DecidableEq

/-- Result record of `calculateTargetGPA`; `messageTier` abstracts the chosen
message string into its selection branch. -/
structure TargetCalculation where
  targetCGPA : ℚ
  currentCGPA : ℚ
  creditsCompleted : ℚ
  creditsRemaining : ℚ
  requiredGPA : ℚ
  feasible : Bool
  messageTier : TargetTier
deriving DecidableEq

/-- The `creditsCompleted` accumulation of `calculateTargetGPA`. -/
def sessionCreditsCompleted (session : Session) : ℚ :=
  session.semesters.foldl (fun acc s => acc + getSemesterCredits s) 0

/-- `calculateTargetGPA(session, targetCGPA, creditsRemaining)` from
`statistics.ts`. -/
def calculateTargetGPA (session : Session) (targetCGPA creditsRemaining : ℚ) :
    TargetCalculation :=
  let currentCGPA := jsOr ((calculateCGPA session.semesters).getD 0) 0
  let creditsCompleted := sessionCreditsCompleted session
  let requiredGPA :=
    if 0 < creditsRemaining then
      (targetCGPA * (creditsCompleted + creditsRemaining) - currentCGPA * creditsCompleted)
        / creditsRemaining
    else 0
  let maxPossible := jsOr session.metadata.scale 10
  let feasible := requiredGPA ≤ maxPossible ∧ 0 ≤ requiredGPA
  let messageTier : TargetTier :=
    if ¬ (requiredGPA ≤ maxPossible ∧ 0 ≤ requiredGPA) then
      (if maxPossible < requiredGPA then .notAchievableExceedsMax else .targetAlreadyAchieved)
    else if maxPossible * (9/10) ≤ requiredGPA then .veryChallenging
    else if maxPossible * (7/10) ≤ requiredGPA then .achievableWithEffort
    else .easilyAchievable
  { targetCGPA := targetCGPA
    currentCGPA := jsOr (roundForDisplay2 currentCGPA) 0
    creditsCompleted := creditsCompleted
    creditsRemaining := creditsRemaining
    requiredGPA := jsOr (roundForDisplay2 requiredGPA) 0
    feasible := decide feasible
    messageTier := messageTier }

/-- Decision tier of the `calculateIntraSemesterTarget` message chain
(the first two arise on the all-courses-graded early return). -/
inductive IntraTier
  | allGradedAchieved
  | allGradedNotAchieved
  | notAchievable
  | alreadyExceeded
  | veryChallenging
  | achievableWithEffort
  | easilyAchievable
deriving DecidableEq

/-- Per-course recommendation of the intra-semester solver; `marksNeeded` is the
`Math.round`ed integer field of the source. -/
structure CourseRecommendation where
  courseName : String
  currentMarks : Option ℚ
  marksNeeded : ℤ
  gradeNeeded : String
  feasible : Bool
deriving DecidableEq

/-- Result record of `calculateIntraSemesterTarget`; the message string is
abstracted to `messageTier`. -/
structure IntraSemesterTarget where
  currentSemesterGPA : Option ℚ
  targetSemesterGPA : ℚ
  coursesWithMarks : List Course
  coursesNeedingGrades : List Course
  recommendations : List CourseRecommendation
  feasible : Bool
  messageTier : IntraTier
deriving DecidableEq

/-- `scale === 10 ? BIT_MESRA_10_POINT : undefined` from the intra-semester solver. -/
def templateForScale (scale : ℚ) : Option GradeTemplate :=
  if scale = 10 then some BIT_MESRA_10_POINT else none

/-- The per-course recommendation block of `calculateIntraSemesterTarget`: walk
the template mappings overwriting `(marksNeeded, gradeNeeded)` whenever
`mapping.gradePoint >= requiredGP`, then cap at `100` marks with a `"+"`-suffixed
top grade when `requiredGP` exceeds the top mapping's grade point. -/
def recommendFor (requiredGP scale : ℚ) (course : Course) : CourseRecommendation :=
  let res : ℚ × String :=
    match templateForScale scale with
    | none => (0, "N/A")
    | some template =>
      let base := template.mappings.foldl
        (fun acc m => if requiredGP ≤ m.gradePoint then (m.minMarks, m.letterGrade) else acc)
        (0, "N/A")
      if (template.mappings.headI).gradePoint < requiredGP then
        (100, (template.mappings.headI).letterGrade ++ "+")
      else base
  { courseName := course.name
    currentMarks := course.marks
    marksNeeded := jsRound res.1
    gradeNeeded := res.2
    feasible := decide (res.1 ≤ 100) }

/-- `semester.courses.filter(c => c.gradePoint !== null && c.gradePoint !== undefined)`. -/
def coursesWithMarksOf (semester : Semester) : List Course :=
  semester.courses.filter (fun c => c.gradePoint.isSome)

/-- `semester.courses.filter(c => c.gradePoint === null || c.gradePoint === undefined)`. -/
def coursesNeedingGradesOf (semester : Semester) : List Course :=
  semester.courses.filter (fun c => ¬ c.gradePoint.isSome)

/-- `totalCredits` of the intra-semester solver: sum of all course credits. -/
def intraTotalCredits (semester : Semester) : ℚ :=
  semester.courses.foldl (fun acc c => acc + c.credits) 0

/-- `remainingCredits` of the intra-semester solver: sum of ungraded-course credits. -/
def intraRemainingCredits (semester : Semester) : ℚ :=
  (coursesNeedingGradesOf semester).foldl (fun acc c => acc + c.credits) 0

/-- `currentPoints` of the intra-semester solver: `Σ (gradePoint || 0) * credits`
over the graded courses. -/
def intraCurrentPoints (semester : Semester) : ℚ :=
  (coursesWithMarksOf semester).foldl (fun acc c => acc + c.gradePoint.getD 0 * c.credits) 0

/-- `avgGPANeeded` of the intra-semester solver, with its division guarded by
`remainingCredits > 0`. -/
def intraAvgGPANeeded (semester : Semester) (targetGPA : ℚ) : ℚ :=
  let pointsNeeded := targetGPA * intraTotalCredits semester - intraCurrentPoints semester
  if 0 < intraRemainingCredits semester then pointsNeeded / intraRemainingCredits semester
  else 0

/-- `calculateIntraSemesterTarget(semester, targetGPA, scale)` from
`intrasemester.ts`. -/
def calculateIntraSemesterTarget (semester : Semester) (targetGPA : ℚ) (scale : ℚ) :
    IntraSemesterTarget :=
  let coursesWithMarks := coursesWithMarksOf semester
  let coursesNeedingGrades := coursesNeedingGradesOf semester
  let currentGPA := calculateGPA coursesWithMarks
  if coursesNeedingGrades = [] then
    let achieved : Bool :=
      match currentGPA with | some g => decide (targetGPA ≤ g) | none => false
    { currentSemesterGPA := currentGPA
      targetSemesterGPA := targetGPA
      coursesWithMarks := coursesWithMarks
      coursesNeedingGrades := []
      recommendations := []
      feasible := achieved
      messageTier := if achieved then .allGradedAchieved else .allGradedNotAchieved }
  else
    let avgGPANeeded := intraAvgGPANeeded semester targetGPA
    let feasible := avgGPANeeded ≤ scale ∧ 0 ≤ avgGPANeeded
    let recommendations := coursesNeedingGrades.map (recommendFor avgGPANeeded scale)
    let messageTier : IntraTier :=
      if ¬ (avgGPANeeded ≤ scale ∧ 0 ≤ avgGPANeeded) then
        (if scale < avgGPANeeded then .notAchievable else .alreadyExceeded)
      else if scale * (9/10) ≤ avgGPANeeded then .veryChallenging
      else if scale * (7/10) ≤ avgGPANeeded then .achievableWithEffort
      else .easilyAchievable
    { currentSemesterGPA := currentGPA
      targetSemesterGPA := targetGPA
      coursesWithMarks := coursesWithMarks
      coursesNeedingGrades := coursesNeedingGrades
      recommendations := recommendations
      feasible := decide feasible
      messageTier := messageTier }

/-- Chart data point (`chartData.ts`); the synthetic and histogram buckets both
carry `name`, `value` and `count`. -/
structure ChartDataPoint where
  name : String
  value : ℚ
  count : ℕ
deriving DecidableEq

/-- The grade-count accumulation of `getGradeDistribution` (same nested loop as
in `calculateStatistics`). -/
def gradeCountsOf (semesters : List Semester) : List (String × ℕ) :=
  semesters.foldl distStep []

/-- `getGradeDistribution(session)` from `chartData.ts`: histogram of truthy
course grades sorted by descending count; when the histogram is empty and some
semester has `manualGPA` set, a single synthetic "Manual Entry" bucket whose
`count` is the number of semesters with truthy `manualGPA`. -/
def getGradeDistribution (session : Session) : List ChartDataPoint :=
  let distribution := gradeCountsOf session.semesters
  if distribution = [] ∧ session.semesters.any (fun s => s.manualGPA.isSome) then
    [⟨"Manual Entry", 1,
      (session.semesters.filter
        (fun s => match s.manualGPA with | some g => decide (g ≠ 0) | none => false)).length⟩]
  else
    (distribution.map (fun kv => ChartDataPoint.mk kv.1 (kv.2 : ℚ) kv.2)).mergeSort
      (fun a b => decide (b.value ≤ a.value))

/-! ### Spec-side definitions

The following definitions transcribe the *specification's* wording (not the
source); the claims compare them against the source translations above. -/

/-- Course qualification used by the source's GPA loop: grade point present and
credits non-zero. -/
def qualC (c : Course) : Bool := c.gradePoint.isSome && decide (c.credits ≠ 0)

/-- Spec wording of `semesterGPA` (claim C5): weighted average of `gradePoint`
by `credits` over the courses with a grade point present and `credits > 0`;
`null` when no course qualifies. -/
def specSemesterGPA (courses : List Course) : Option ℚ :=
  let qual := courses.filter (fun c => c.gradePoint.isSome && decide (0 < c.credits))
  if qual = [] then none
  else
    some ((qual.map (fun c => c.gradePoint.getD 0 * c.credits)).sum
      / (qual.map (fun c => c.credits)).sum)

/-- Spec wording of `cgpa` (claim C1): weighted average of the effective GPA
(`getSemesterGPA`) by the effective credits (`getSemesterCredits`) over the
semesters with a defined effective GPA and non-zero effective credits; `null`
when no semester qualifies. -/
def specCGPA (semesters : List Semester) : Option ℚ :=
  let qual := semesters.filter
    (fun s => ((getSemesterGPA s).gpa).isSome && decide (getSemesterCredits s ≠ 0))
  if qual = [] then none
  else
    some ((qual.map (fun s => ((getSemesterGPA s).gpa).getD 0 * getSemesterCredits s)).sum
      / (qual.map getSemesterCredits).sum)

/-- Amended weight for claim C1: the credits the CGPA loop actually accumulates
for a semester — the total credits of its graded non-zero-credit courses when
the course list is non-empty, else `manualCredits` when the manual pair is set
with positive credits, else `0`. -/
def gradedCredits (s : Semester) : ℚ :=
  if s.courses ≠ [] then ((s.courses.filter qualC).map (fun c => c.credits)).sum
  else
    match s.manualGPA, s.manualCredits with
    | some _, some c => if 0 < c then c else 0
    | _, _ => 0

/-- Amended spec wording of `cgpa` (claim C1): as `specCGPA` but weighting each
semester by `gradedCredits` instead of `getSemesterCredits`. -/
def specCGPAgraded (semesters : List Semester) : Option ℚ :=
  let qual := semesters.filter
    (fun s => ((getSemesterGPA s).gpa).isSome && decide (gradedCredits s ≠ 0))
  if qual = [] then none
  else
    some ((qual.map (fun s => ((getSemesterGPA s).gpa).getD 0 * gradedCredits s)).sum
      / (qual.map gradedCredits).sum)

/-- Spec wording of the cross-semester closed form (claims C2, C8):
`(targetCGPA*(creditsCompleted+remainingCredits) - currentCGPA*creditsCompleted)
/ remainingCredits` with `currentCGPA = cgpa ?? 0` and `creditsCompleted` the
sum of effective credits. -/
def closedFormRequiredGPA (session : Session) (targetCGPA creditsRemaining : ℚ) : ℚ :=
  let currentCGPA := (calculateCGPA session.semesters).getD 0
  let creditsCompleted := sessionCreditsCompleted session
  (targetCGPA * (creditsCompleted + creditsRemaining) - currentCGPA * creditsCompleted)
    / creditsRemaining

/-- Spec wording of the trend rule (claim C3) applied to a plain GPA sequence:
unknown with fewer than 2 data points; otherwise take the last 3 values, split
into a first half of `floor(n/2)` earliest values and a second half of the
remainder, and compare the two arithmetic means against the fixed `0.2` margin. -/
def specTrend (gpas : List ℚ) : Trend :=
  if gpas.length < 2 then .unknown
  else
    let recent := ((gpas.reverse.take 3).reverse)
    let firstHalf := recent.take (recent.length / 2)
    let secondHalf := recent.drop (recent.length / 2)
    if firstHalf.sum / (firstHalf.length : ℚ) + 1/5 < secondHalf.sum / (secondHalf.length : ℚ)
      then .improving
    else if secondHalf.sum / (secondHalf.length : ℚ)
        < firstHalf.sum / (firstHalf.length : ℚ) - 1/5 then .declining
    else .stable

/-- Minimum-`minMarks` element of a mapping list (spec wording for claim C4:
"the minimum-marks mapping whose gradePoint is ≥ the required value"). -/
def minByMinMarks : List GradeMapping → Option GradeMapping
  | [] => none
  | m :: rest =>
    match minByMinMarks rest with
    | none => some m
    | some b => some (if b.minMarks < m.minMarks then b else m)

/-- Spec wording of the per-course recommendation (claim C4): when the required
grade point exceeds the top mapping's, `marksNeeded = 100` with the top letter
grade suffixed by `"+"`; otherwise take the minimum-marks mapping of the
10-point template whose grade point is at least the requirement; the course is
flagged infeasible when `marksNeeded` would exceed 100. -/
def specIntraRec (requiredGP : ℚ) (c : Course) : CourseRecommendation :=
  if (BIT_MESRA_10_POINT.mappings.headI).gradePoint < requiredGP then
    ⟨c.name, c.marks, 100, (BIT_MESRA_10_POINT.mappings.headI).letterGrade ++ "+",
      decide ((100 : ℚ) ≤ 100)⟩
  else
    match minByMinMarks
        (BIT_MESRA_10_POINT.mappings.filter (fun m => decide (requiredGP ≤ m.gradePoint))) with
    | some m => ⟨c.name, c.marks, jsRound m.minMarks, m.letterGrade, decide (m.minMarks ≤ 100)⟩
    | none => ⟨c.name, c.marks, 0, "N/A", true⟩

/-- Occurrence count of a (truthy) letter grade across all courses of all
semesters (spec wording for claim C9's histogram buckets). -/
def countGradeIn (semesters : List Semester) (g : String) : ℕ :=
  (semesters.map (fun s => s.courses.countP (fun c => truthyGrade c == some g))).sum

/-- Total count stored under a key of an association-list distribution. -/
def keyCount (d : List (String × ℕ)) (g : String) : ℕ :=
  ((d.filter (fun p => p.1 == g)).map Prod.snd).sum

/-- Well-formedness of a distribution: positive counts and no duplicate keys. -/
def distWF (d : List (String × ℕ)) : Prop :=
  (∀ p ∈ d, 0 < p.2) ∧ (d.map Prod.fst).Nodup

/-! ### Concrete instances used by witnesses and counterexamples -/

/-- Course list with one zero-credit graded course and one ungraded course. -/
def c5demo : List Course := [{ credits := 0, gradePoint := some 5 }, { credits := 3 }]

/-- Semester with a one-credit graded course (grade point 10) and a nine-credit
ungraded course: its effective GPA is 10 while its effective credits are 10,
but only 1 credit is accumulated by the CGPA loop. -/
def c1semA : Semester :=
  { id := "a", courses := [{ name := "g", credits := 1, gradePoint := some 10 },
                           { name := "u", credits := 9 }] }

/-- Semester with a single one-credit course of grade point 0. -/
def c1semB : Semester :=
  { id := "b", courses := [{ name := "h", credits := 1, gradePoint := some 0 }] }

/-- Semester holding a single graded three-credit course. -/
def gradedDemoSemester : Semester := { courses := [{ credits := 3, gradePoint := some 8 }] }

/-- Semester with a single four-credit ungraded course named "X". -/
def c4demoSemester : Semester := { courses := [{ name := "X", credits := 4 }] }

/-- Session holding one manual-entry semester and no courses. -/
def c9manualSession : Session :=
  { semesters := [{ manualGPA := some 8, manualCredits := some 10 }] }

/-- Session holding one semester with a single "A"-graded course. -/
def c9gradedSession : Session :=
  { semesters := [{ courses := [{ name := "C1", credits := 3, grade := some "A" }] }] }

/-- Manual-entry semester with `order = 3` and GPA 10. -/
def c3semA : Semester := { id := "a", order := 3, manualGPA := some 10, manualCredits := some 1 }

/-- Manual-entry semester with `order = 1` and GPA 5. -/
def c3semB : Semester := { id := "b", order := 1, manualGPA := some 5, manualCredits := some 1 }

/-- Manual-entry semester with `order = 2` and GPA 5. -/
def c3semC : Semester := { id := "c", order := 2, manualGPA := some 5, manualCredits := some 1 }

/-- Session realising the spec's target-solver scenario: current CGPA 7.5 over
60 completed credits on the 10-point scale. -/
def c2demoSession : Session :=
  { semesters := [{ id := "s1", name := "S1", manualGPA := some (15/2),
                    manualCredits := some 60 }]
    metadata := { scale := 10 } }

/-- Session with current CGPA 7 over 1 completed credit: asking for target 8
over 3 remaining credits makes the closed form `25/3`, which is not
representable in two decimals. -/
def c2cexSession : Session :=
  { semesters := [{ id := "s1", name := "S1", manualGPA := some 7, manualCredits := some 1 }]
    metadata := { scale := 10 } }

/-! ### Helper lemmas -/

theorem foldl_gpaStep_eq (cs : List Course) (a : ℚ × ℚ) :
    cs.foldl gpaStep a
      = (a.1 + ((cs.filter qualC).map (fun c => c.gradePoint.getD 0 * c.credits)).sum,
         a.2 + ((cs.filter qualC).map (fun c => c.credits)).sum) := by
  induction cs generalizing a with
  | nil => simp
  | cons c rest ih =>
    rcases hgp : c.gradePoint with _ | gp
    · simp [gpaStep, hgp, qualC, List.filter_cons, ih a]
    · by_cases hcr : c.credits = 0
      · simp [gpaStep, hgp, hcr, qualC, List.filter_cons, ih a]
      · rw [List.foldl_cons, ih]
        have hq : qualC c = true := by simp [qualC, hgp, hcr]
        rw [List.filter_cons_of_pos hq, List.map_cons, List.map_cons,
          List.sum_cons, List.sum_cons]
        simp only [gpaStep, hgp, if_neg hcr, hgp, Option.getD_some, Prod.mk.injEq]
        constructor <;> ring

theorem calculateGPAacc_eq (cs : List Course) :
    calculateGPAacc cs
      = (((cs.filter qualC).map (fun c => c.gradePoint.getD 0 * c.credits)).sum,
         ((cs.filter qualC).map (fun c => c.credits)).sum) := by
  simpa [calculateGPAacc] using foldl_gpaStep_eq cs (0, 0)

theorem qualC_filter_pos (cs : List Course) (h : ∀ c ∈ cs, 0 ≤ c.credits) :
    ∀ c ∈ cs.filter qualC, 0 < c.credits := by
  intro c hc
  have hmem := List.mem_of_mem_filter hc
  have hq := List.of_mem_filter hc
  simp only [qualC, Bool.and_eq_true, decide_eq_true_eq] at hq
  exact lt_of_le_of_ne (h c hmem) (Ne.symm hq.2)

theorem qual_credits_sum_eq_zero_iff (cs : List Course) (h : ∀ c ∈ cs, 0 ≤ c.credits) :
    ((cs.filter qualC).map (fun c => c.credits)).sum = 0 ↔ cs.filter qualC = [] := by
  constructor
  · intro hsum
    by_contra hne
    have hpos : 0 < ((cs.filter qualC).map (fun c => c.credits)).sum := by
      apply List.sum_pos
      · intro x hx
        rcases List.mem_map.mp hx with ⟨c, hc, rfl⟩
        exact qualC_filter_pos cs h c hc
      · simpa using hne
    exact absurd hsum (ne_of_gt hpos)
  · intro hnil
    simp [hnil]

theorem filter_pos_eq_filter_qualC (cs : List Course) (h : ∀ c ∈ cs, 0 ≤ c.credits) :
    cs.filter (fun c => c.gradePoint.isSome && decide (0 < c.credits)) = cs.filter qualC := by
  apply List.filter_congr
  intro c hc
  simp only [qualC]
  by_cases hs : c.gradePoint.isSome
  · simp only [hs, Bool.true_and, decide_eq_decide]
    constructor
    · exact fun hlt => ne_of_gt hlt
    · exact fun hne => lt_of_le_of_ne (h c hc) (Ne.symm hne)
  · simp [hs]

theorem semesterAccum_snd (s : Semester) : (semesterAccum s).2 = gradedCredits s := by
  unfold semesterAccum gradedCredits
  by_cases h : s.courses ≠ []
  · rw [if_pos h, if_pos h, calculateGPAacc_eq]
  · rw [if_neg h, if_neg h]
    rcases s.manualGPA with _ | g <;> rcases s.manualCredits with _ | c <;> simp
    by_cases hc : 0 < c <;> simp [hc]

theorem semesterAccum_fst (s : Semester) (h : ∀ c ∈ s.courses, 0 ≤ c.credits) :
    (semesterAccum s).1 = ((getSemesterGPA s).gpa).getD 0 * gradedCredits s := by
  unfold semesterAccum getSemesterGPA gradedCredits
  by_cases hne : s.courses ≠ []
  · rw [if_pos hne, if_pos hne, if_pos hne, calculateGPAacc_eq]
    unfold calculateGPA
    rw [calculateGPAacc_eq]
    by_cases hz : ((s.courses.filter qualC).map (fun c => c.credits)).sum = 0
    · have hq : s.courses.filter qualC = [] := (qual_credits_sum_eq_zero_iff _ h).mp hz
      simp [hq]
    · simp only [if_neg hz, Option.getD_some]
      exact (div_mul_cancel₀ _ hz).symm
  · rw [if_neg hne, if_neg hne, if_neg hne]
    rcases s.manualGPA with _ | g <;> rcases s.manualCredits with _ | c <;> simp
    by_cases hc : 0 < c <;> simp [hc]

theorem gradedCredits_nonneg (s : Semester) (h : ∀ c ∈ s.courses, 0 ≤ c.credits) :
    0 ≤ gradedCredits s := by
  unfold gradedCredits
  by_cases hne : s.courses ≠ []
  · rw [if_pos hne]
    apply List.sum_nonneg
    intro x hx
    rcases List.mem_map.mp hx with ⟨c, hc, rfl⟩
    exact h c (List.mem_of_mem_filter hc)
  · rw [if_neg hne]
    rcases s.manualGPA with _ | g <;> rcases s.manualCredits with _ | c <;> simp
    by_cases hc : 0 < c <;> simp [hc]
    exact le_of_lt hc

theorem gpa_isSome_of_gradedCredits_ne (s : Semester) (hgc : gradedCredits s ≠ 0) :
    ((getSemesterGPA s).gpa).isSome = true := by
  unfold gradedCredits at hgc
  unfold getSemesterGPA
  by_cases hne : s.courses ≠ []
  · rw [if_pos hne] at hgc
    rw [if_pos hne]
    unfold calculateGPA
    rw [calculateGPAacc_eq]
    simp [hgc]
  · rw [if_neg hne] at hgc
    rw [if_neg hne]
    rcases hg : s.manualGPA with _ | g <;> rcases hc : s.manualCredits with _ | c <;>
      simp_all [hg, hc]

theorem jsOr_zero (x : ℚ) : jsOr x 0 = x := by
  unfold jsOr
  split_ifs with h
  · exact h.symm
  · rfl

theorem sum_map_filter_of_zero {α : Type} (l : List α) (f : α → ℚ) (p : α → Bool)
    (h : ∀ a ∈ l, p a = false → f a = 0) :
    (l.map f).sum = ((l.filter p).map f).sum := by
  induction l with
  | nil => simp
  | cons a t ih =>
    have iht := ih (fun x hx hp => h x (List.mem_cons_of_mem _ hx) hp)
    by_cases hp : p a = true
    · simp [List.filter_cons, hp, iht]
    · have hz : f a = 0 := h a (List.mem_cons_self a t) (by simpa using hp)
      simp [List.filter_cons, hp, hz, iht]

theorem statsFold_gpas (sems : List Semester) (init : StatsAcc) :
    (sems.foldl statsStep init).gpas
      = init.gpas ++ sems.filterMap (fun s => (getSemesterGPA s).gpa) := by
  induction sems generalizing init with
  | nil => simp
  | cons s t ih =>
    rw [List.foldl_cons, ih]
    rcases hg : (getSemesterGPA s).gpa with _ | g <;>
      simp [statsStep, hg, List.filterMap_cons]

theorem trendOf_eq_specTrend (gpas : List ℚ) : trendOf gpas = specTrend gpas := by
  unfold trendOf specTrend
  rw [List.take_reverse, List.reverse_reverse]
  rcases lt_or_le gpas.length 2 with h | h
  · rw [if_neg (not_le.mpr h), if_pos h]
  · rw [if_pos h, if_neg (not_lt.mpr h)]

theorem findMapping_eq (l : List GradeMapping) (mp : GradeMapping) (m : ℚ)
    (hmem : mp ∈ l) (h1 : mp.minMarks ≤ m) (h2 : m ≤ mp.maxMarks)
    (hdisj : l.Pairwise (fun a b => a.maxMarks < b.minMarks ∨ b.maxMarks < a.minMarks)) :
    findMapping m l = some mp := by
  induction l with
  | nil => cases hmem
  | cons a t ih =>
    rcases List.mem_cons.mp hmem with rfl | hmt
    · unfold findMapping
      exact if_pos ⟨h1, h2⟩
    · have hd := (List.pairwise_cons.mp hdisj).1 mp hmt
      have hcond : ¬(a.minMarks ≤ m ∧ m ≤ a.maxMarks) := by
        rintro ⟨ha, hb⟩
        rcases hd with h | h <;> linarith
      unfold findMapping
      rw [if_neg hcond]
      exact ih hmt (List.pairwise_cons.mp hdisj).2

theorem bit10_disjoint :
    BIT_MESRA_10_POINT.mappings.Pairwise
      (fun a b => a.maxMarks < b.minMarks ∨ b.maxMarks < a.minMarks) := by
  norm_num [BIT_MESRA_10_POINT, List.pairwise_cons]

theorem std4_disjoint :
    STANDARD_4_POINT.mappings.Pairwise
      (fun a b => a.maxMarks < b.minMarks ∨ b.maxMarks < a.minMarks) := by
  norm_num [STANDARD_4_POINT, List.pairwise_cons]

theorem foldl_add_credits (l : List Course) (a : ℚ) :
    l.foldl (fun acc c => acc + c.credits) a = a + (l.map (fun c => c.credits)).sum := by
  induction l generalizing a with
  | nil => simp
  | cons c t ih => rw [List.foldl_cons, ih]; simp; ring

theorem intraRemainingCredits_nonneg (semester : Semester)
    (h : ∀ c ∈ semester.courses, 0 ≤ c.credits) : 0 ≤ intraRemainingCredits semester := by
  unfold intraRemainingCredits
  rw [foldl_add_credits, zero_add]
  apply List.sum_nonneg
  intro x hx
  rcases List.mem_map.mp hx with ⟨c, hc, rfl⟩
  exact h c (List.mem_of_mem_filter hc)

theorem intraAvg_eq (semester : Semester) (t : ℚ)
    (h : ∀ c ∈ semester.courses, 0 ≤ c.credits) :
    intraAvgGPANeeded semester t
      = (t * intraTotalCredits semester - intraCurrentPoints semester)
          / intraRemainingCredits semester := by
  unfold intraAvgGPANeeded
  rcases eq_or_lt_of_le (intraRemainingCredits_nonneg semester h) with heq | hlt
  · rw [if_neg (by rw [← heq]; exact lt_irrefl 0), ← heq, div_zero]
  · rw [if_pos hlt]

theorem recommendFor_eq_specIntraRec (req : ℚ) (c : Course) :
    recommendFor req 10 c = specIntraRec req c := by
  unfold recommendFor specIntraRec templateForScale
  rw [if_pos (show (10:ℚ) = 10 from rfl)]
  simp only [BIT_MESRA_10_POINT, List.headI, List.foldl, List.filter_cons, List.filter_nil,
    decide_eq_true_eq]
  by_cases h10 : (10:ℚ) < req
  · have a1 : ¬req ≤ 10 := not_le.mpr h10
    norm_num [h10, a1, minByMinMarks, jsRound]
  · push_neg at h10
    have b0 : ¬(10:ℚ) < req := not_lt.mpr h10
    rcases le_or_lt req 0 with h0 | h0
    · have a5 : req ≤ 5 := by linarith
      have a6 : req ≤ 6 := by linarith
      have a7 : req ≤ 7 := by linarith
      have a8 : req ≤ 8 := by linarith
      have a9 : req ≤ 9 := by linarith
      norm_num [b0, h0, a5, a6, a7, a8, a9, h10, minByMinMarks, jsRound]
    · rcases le_or_lt req 5 with h5 | h5
      · have n0 : ¬req ≤ 0 := not_le.mpr h0
        have a6 : req ≤ 6 := by linarith
        have a7 : req ≤ 7 := by linarith
        have a8 : req ≤ 8 := by linarith
        have a9 : req ≤ 9 := by linarith
        norm_num [b0, n0, h5, a6, a7, a8, a9, h10, minByMinMarks, jsRound]
      · rcases le_or_lt req 6 with h6 | h6
        · have n0 : ¬req ≤ 0 := not_le.mpr (by linarith)
          have n5 : ¬req ≤ 5 := not_le.mpr h5
          have a7 : req ≤ 7 := by linarith
          have a8 : req ≤ 8 := by linarith
          have a9 : req ≤ 9 := by linarith
          norm_num [b0, n0, n5, h6, a7, a8, a9, h10, minByMinMarks, jsRound]
        · rcases le_or_lt req 7 with h7 | h7
          · have n0 : ¬req ≤ 0 := not_le.mpr (by linarith)
            have n5 : ¬req ≤ 5 := not_le.mpr (by linarith)
            have n6 : ¬req ≤ 6 := not_le.mpr h6
            have a8 : req ≤ 8 := by linarith
            have a9 : req ≤ 9 := by linarith
            norm_num [b0, n0, n5, n6, h7, a8, a9, h10, minByMinMarks, jsRound]
          · rcases le_or_lt req 8 with h8 | h8
            · have n0 : ¬req ≤ 0 := not_le.mpr (by linarith)
              have n5 : ¬req ≤ 5 := not_le.mpr (by linarith)
              have n6 : ¬req ≤ 6 := not_le.mpr (by linarith)
              have n7 : ¬req ≤ 7 := not_le.mpr h7
              have a9 : req ≤ 9 := by linarith
              norm_num [b0, n0, n5, n6, n7, h8, a9, h10, minByMinMarks, jsRound]
            · rcases le_or_lt req 9 with h9 | h9
              · have n0 : ¬req ≤ 0 := not_le.mpr (by linarith)
                have n5 : ¬req ≤ 5 := not_le.mpr (by linarith)
                have n6 : ¬req ≤ 6 := not_le.mpr (by linarith)
                have n7 : ¬req ≤ 7 := not_le.mpr (by linarith)
                have n8 : ¬req ≤ 8 := not_le.mpr h8
                norm_num [b0, n0, n5, n6, n7, n8, h9, h10, minByMinMarks, jsRound]
              · have n0 : ¬req ≤ 0 := not_le.mpr (by linarith)
                have n5 : ¬req ≤ 5 := not_le.mpr (by linarith)
                have n6 : ¬req ≤ 6 := not_le.mpr (by linarith)
                have n7 : ¬req ≤ 7 := not_le.mpr (by linarith)
                have n8 : ¬req ≤ 8 := not_le.mpr (by linarith)
                have n9 : ¬req ≤ 9 := not_le.mpr h9
                norm_num [b0, n0, n5, n6, n7, n8, n9, h10, minByMinMarks, jsRound]

theorem fold_marks_le (ms : List GradeMapping) (req : ℚ) (acc : ℚ × String)
    (hacc : acc.1 ≤ 100) (hms : ∀ m ∈ ms, m.minMarks ≤ 100) :
    (ms.foldl
      (fun acc m => if req ≤ m.gradePoint then (m.minMarks, m.letterGrade) else acc) acc).1
      ≤ 100 := by
  induction ms generalizing acc with
  | nil => exact hacc
  | cons m t ih =>
    rw [List.foldl_cons]
    by_cases h : req ≤ m.gradePoint
    · rw [if_pos h]
      exact ih (m.minMarks, m.letterGrade) (hms m (List.mem_cons_self m t))
        (fun x hx => hms x (List.mem_cons_of_mem _ hx))
    · rw [if_neg h]
      exact ih acc hacc (fun x hx => hms x (List.mem_cons_of_mem _ hx))

theorem keyCount_cons (k : String) (n : ℕ) (t : List (String × ℕ)) (g : String) :
    keyCount ((k, n) :: t) g = (if k = g then n else 0) + keyCount t g := by
  by_cases hk : k = g <;> simp [keyCount, List.filter_cons, hk]

theorem keyCount_bump (d : List (String × ℕ)) (h g : String) :
    keyCount (bump d h) g = keyCount d g + (if h = g then 1 else 0) := by
  induction d with
  | nil =>
    by_cases hg : h = g <;> simp [bump, keyCount, List.filter_cons, hg]
  | cons p t ih =>
    obtain ⟨k, n⟩ := p
    by_cases hk : k = h
    · subst hk
      rw [show bump ((k, n) :: t) k = (k, n + 1) :: t from by simp [bump],
        keyCount_cons, keyCount_cons]
      by_cases hg : k = g
      · simp [hg]
        omega
      · simp [hg]
    · rw [show bump ((k, n) :: t) h = (k, n) :: bump t h from by simp [bump, hk],
        keyCount_cons, keyCount_cons, ih]
      omega

theorem bump_keys (d : List (String × ℕ)) (h : String) :
    (bump d h).map Prod.fst
      = if h ∈ d.map Prod.fst then d.map Prod.fst else d.map Prod.fst ++ [h] := by
  induction d with
  | nil => simp [bump]
  | cons p t ih =>
    obtain ⟨k, n⟩ := p
    by_cases hk : k = h
    · subst hk
      simp [bump]
    · rw [show bump ((k, n) :: t) h = (k, n) :: bump t h from by simp [bump, hk]]
      by_cases hm : h ∈ t.map Prod.fst <;>
        simp [ih, hm, hk, Ne.symm hk]

theorem bump_pos (d : List (String × ℕ)) (h : String) (hd : ∀ p ∈ d, 0 < p.2) :
    ∀ p ∈ bump d h, 0 < p.2 := by
  induction d with
  | nil =>
    intro p hp
    simp [bump] at hp
    simp [hp]
  | cons q t ih =>
    obtain ⟨k, n⟩ := q
    intro p hp
    by_cases hk : k = h
    · subst hk
      rw [show bump ((k, n) :: t) k = (k, n + 1) :: t from by simp [bump]] at hp
      rcases List.mem_cons.mp hp with rfl | hp
      · simp
      · exact hd p (List.mem_cons_of_mem _ hp)
    · rw [show bump ((k, n) :: t) h = (k, n) :: bump t h from by simp [bump, hk]] at hp
      rcases List.mem_cons.mp hp with rfl | hp
      · exact hd (k, n) (List.mem_cons_self _ _)
      · exact ih (fun q hq => hd q (List.mem_cons_of_mem _ hq)) p hp

theorem distWF_bump (d : List (String × ℕ)) (h : String) (hwf : distWF d) :
    distWF (bump d h) := by
  refine ⟨bump_pos d h hwf.1, ?_⟩
  rw [bump_keys]
  by_cases hm : h ∈ d.map Prod.fst
  · simpa [hm] using hwf.2
  · simp only [hm, if_false]
    simp [List.nodup_append, hwf.2, hm]

theorem keyCount_courseStep (d : List (String × ℕ)) (c : Course) (g : String) :
    keyCount (courseStep d c) g
      = keyCount d g + (if truthyGrade c == some g then 1 else 0) := by
  unfold courseStep
  rcases ht : truthyGrade c with _ | h
  · simp
  · rw [keyCount_bump]
    by_cases hg : h = g <;> simp [hg]

theorem distWF_courseStep (d : List (String × ℕ)) (c : Course) (hwf : distWF d) :
    distWF (courseStep d c) := by
  unfold courseStep
  rcases truthyGrade c with _ | h
  · exact hwf
  · exact distWF_bump d h hwf

theorem keyCount_foldl_courses (cs : List Course) (d : List (String × ℕ)) (g : String) :
    keyCount (cs.foldl courseStep d) g
      = keyCount d g + cs.countP (fun c => truthyGrade c == some g) := by
  induction cs generalizing d with
  | nil => simp
  | cons c t ih =>
    rw [List.foldl_cons, ih, keyCount_courseStep, List.countP_cons]
    by_cases hb : (truthyGrade c == some g) = true
    · simp [hb]
      omega
    · simp [hb]

theorem distWF_foldl_courses (cs : List Course) (d : List (String × ℕ)) (hwf : distWF d) :
    distWF (cs.foldl courseStep d) := by
  induction cs generalizing d with
  | nil => exact hwf
  | cons c t ih => exact ih _ (distWF_courseStep d c hwf)

theorem keyCount_foldl_dist (sems : List Semester) (d : List (String × ℕ)) (g : String) :
    keyCount (sems.foldl distStep d) g = keyCount d g + countGradeIn sems g := by
  induction sems generalizing d with
  | nil => simp [countGradeIn]
  | cons s t ih =>
    rw [List.foldl_cons, ih]
    unfold distStep
    rw [keyCount_foldl_courses]
    simp [countGradeIn]
    omega

theorem keyCount_gradeCountsOf (sems : List Semester) (g : String) :
    keyCount (gradeCountsOf sems) g = countGradeIn sems g := by
  unfold gradeCountsOf
  rw [keyCount_foldl_dist]
  simp [keyCount]

theorem distWF_foldl_dist (sems : List Semester) (d : List (String × ℕ)) (hwf : distWF d) :
    distWF (sems.foldl distStep d) := by
  induction sems generalizing d with
  | nil => exact hwf
  | cons s t ih =>
    rw [List.foldl_cons]
    exact ih _ (distWF_foldl_courses _ _ hwf)

theorem distWF_gradeCountsOf (sems : List Semester) : distWF (gradeCountsOf sems) :=
  distWF_foldl_dist sems [] ⟨by simp, by simp⟩

theorem filter_nil_of_not_mem_keys (d : List (String × ℕ)) (g : String)
    (h : g ∉ d.map Prod.fst) : d.filter (fun p => p.1 == g) = [] := by
  rw [List.filter_eq_nil_iff]
  intro p hp
  simp only [beq_iff_eq]
  intro hpg
  exact h (List.mem_map.mpr ⟨p, hp, hpg⟩)

theorem filter_key_of_wf (d : List (String × ℕ)) (hwf : distWF d) (g : String) :
    d.filter (fun p => p.1 == g)
      = if keyCount d g = 0 then [] else [(g, keyCount d g)] := by
  induction d with
  | nil => simp [keyCount]
  | cons p t ih =>
    obtain ⟨k, n⟩ := p
    obtain ⟨hpos, hnodup⟩ := hwf
    have hnodup' : (k :: t.map Prod.fst).Nodup := by simpa using hnodup
    have hkn := List.nodup_cons.mp hnodup'
    have hwt : distWF t := ⟨fun q hq => hpos q (List.mem_cons_of_mem _ hq), hkn.2⟩
    by_cases hk : k = g
    · have hgnotin : g ∉ t.map Prod.fst := by
        rw [← hk]
        exact hkn.1
      have hft : t.filter (fun p => p.1 == g) = [] := filter_nil_of_not_mem_keys t g hgnotin
      have hkc : keyCount t g = 0 := by
        unfold keyCount
        rw [hft]
        simp
      have hn : 0 < n := hpos (k, n) (List.mem_cons_self _ _)
      rw [List.filter_cons, keyCount_cons, hkc, hft]
      simp [hk, hn.ne']
    · rw [List.filter_cons, keyCount_cons, ih hwt]
      simp [hk]

theorem foldl_courseStep_id (cs : List Course) (d : List (String × ℕ))
    (h : ∀ c ∈ cs, truthyGrade c = none) : cs.foldl courseStep d = d := by
  induction cs generalizing d with
  | nil => rfl
  | cons c t ih =>
    rw [List.foldl_cons, show courseStep d c = d from by
      unfold courseStep
      rw [h c (List.mem_cons_self _ _)]]
    exact ih d (fun x hx => h x (List.mem_cons_of_mem _ hx))

theorem gradeCounts_all_none (sems : List Semester)
    (h : ∀ s ∈ sems, ∀ c ∈ s.courses, truthyGrade c = none) : gradeCountsOf sems = [] := by
  unfold gradeCountsOf
  induction sems with
  | nil => rfl
  | cons s t ih =>
    rw [List.foldl_cons, show distStep [] s = [] from
      foldl_courseStep_id s.courses [] (h s (List.mem_cons_self _ _))]
    exact ih (fun x hx => h x (List.mem_cons_of_mem _ hx))

theorem all_none_of_gradeCounts_nil (sems : List Semester)
    (h : gradeCountsOf sems = []) :
    ∀ s ∈ sems, ∀ c ∈ s.courses, truthyGrade c = none := by
  intro s hs c hc
  rcases ht : truthyGrade c with _ | g
  · rfl
  · exfalso
    have h1 : 0 < s.courses.countP (fun c => truthyGrade c == some g) :=
      List.countP_pos_iff.mpr ⟨c, hc, by simp [ht]⟩
    have hcount : 0 < countGradeIn sems g := by
      unfold countGradeIn
      exact lt_of_lt_of_le h1
        (List.single_le_sum (fun _ _ => Nat.zero_le _) _
          (List.mem_map_of_mem _ hs))
    rw [← keyCount_gradeCountsOf, h] at hcount
    simp [keyCount] at hcount

/-! ### Claims -/

/-- Claim C5: `calculateGPA` returns the credit-weighted average of `gradePoint`
over exactly the courses with a grade point present and positive credits, and
returns `null` (not 0) when no course qualifies; in particular it returns
`null` on every course list in which each course has zero credits or an absent
grade point.  (Credits are non-negative per the data model's schema.) -/
theorem claim_C5 (courses : List Course) (h : ∀ c ∈ courses, 0 ≤ c.credits) :
    calculateGPA courses = specSemesterGPA courses
    ∧ ((∀ c ∈ courses, c.credits = 0 ∨ c.gradePoint = none) → calculateGPA courses = none) := by
  constructor
  · unfold calculateGPA specSemesterGPA
    rw [calculateGPAacc_eq, filter_pos_eq_filter_qualC courses h]
    by_cases hq : courses.filter qualC = []
    · simp [hq]
    · have hsum : ((courses.filter qualC).map (fun c => c.credits)).sum ≠ 0 := by
        intro h0
        exact hq ((qual_credits_sum_eq_zero_iff courses h).mp h0)
      simp [hq, hsum]
  · intro hall
    have hq : courses.filter qualC = [] := by
      rw [List.filter_eq_nil_iff]
      intro c hc
      simp only [qualC, Bool.and_eq_true, decide_eq_true_eq, not_and]
      intro hs
      rcases hall c hc with hcr | hgp
      · simpa using hcr
      · simp [hgp] at hs
    unfold calculateGPA
    rw [calculateGPAacc_eq, hq]
    simp

/-- Witness for claim C5 at a concrete list: one zero-credit graded course and
one ungraded course; the GPA is `null` and agrees with the spec's formula. -/
theorem claim_C5_witness :
    calculateGPA c5demo = specSemesterGPA c5demo ∧ calculateGPA c5demo = none := by
  have h := claim_C5 c5demo (by intro c hc; fin_cases hc <;> norm_num)
  exact ⟨h.1, h.2 (by intro c hc; fin_cases hc <;> simp [c5demo])⟩

/-- Counterexample to claim C1 as stated: with semester `c1semA` (effective GPA
10 over effective credits 10, of which only 1 credit is graded) and semester
`c1semB` (GPA 0 over 1 credit), `calculateCGPA` returns `5`, while the claimed
formula `Σ(effectiveGPA·effectiveCredits)/Σ(effectiveCredits)` over the
qualifying semesters gives `100/11`. -/
theorem claim_C1_counterexample :
    calculateCGPA [c1semA, c1semB] = some 5
    ∧ specCGPA [c1semA, c1semB] = some (100/11)
    ∧ (5 : ℚ) ≠ 100/11 := by
  refine ⟨?_, ?_, by norm_num⟩
  · norm_num [calculateCGPA, semesterAccum, calculateGPAacc, gpaStep, c1semA, c1semB,
      List.cons_ne_nil]
  · norm_num [specCGPA, getSemesterGPA, getSemesterCredits, calculateGPA, calculateGPAacc,
      gpaStep, jsOr, c1semA, c1semB, List.filter_cons, List.cons_ne_nil]

/-- Claim C1 (amended): `calculateCGPA` returns the weighted average
`Σ(effectiveGPA_i · gradedCredits_i) / Σ(gradedCredits_i)` over exactly the
semesters with a defined effective GPA and non-zero `gradedCredits` — where a
semester's weight is the total credits of its graded non-zero-credit courses
(not `getSemesterCredits`, which also counts ungraded courses) when courses
exist, else `manualCredits` when the manual pair is set with positive credits —
and returns `null` when no semester qualifies.  (Credits are non-negative per
the data model's schema.) -/
theorem claim_C1_amended (semesters : List Semester)
    (h : ∀ s ∈ semesters, ∀ c ∈ s.courses, 0 ≤ c.credits) :
    calculateCGPA semesters = specCGPAgraded semesters := by
  unfold calculateCGPA specCGPAgraded
  have e1 : semesters.map (fun s => (semesterAccum s).1)
      = semesters.map (fun s => ((getSemesterGPA s).gpa).getD 0 * gradedCredits s) :=
    List.map_congr_left (fun s hs => semesterAccum_fst s (h s hs))
  have e2 : semesters.map (fun s => (semesterAccum s).2) = semesters.map gradedCredits :=
    List.map_congr_left (fun s _ => semesterAccum_snd s)
  have hz : ∀ s ∈ semesters,
      (fun s => ((getSemesterGPA s).gpa).isSome && decide (gradedCredits s ≠ 0)) s = false →
      gradedCredits s = 0 := by
    intro s _ hp
    by_contra hgc
    simp [gpa_isSome_of_gradedCredits_ne s hgc, hgc] at hp
  rw [e1, e2,
    sum_map_filter_of_zero semesters (fun s => ((getSemesterGPA s).gpa).getD 0 * gradedCredits s)
      (fun s => ((getSemesterGPA s).gpa).isSome && decide (gradedCredits s ≠ 0))
      (fun s hs hp => by simp [hz s hs hp]),
    sum_map_filter_of_zero semesters gradedCredits
      (fun s => ((getSemesterGPA s).gpa).isSome && decide (gradedCredits s ≠ 0)) hz]
  set qual := semesters.filter
    (fun s => ((getSemesterGPA s).gpa).isSome && decide (gradedCredits s ≠ 0)) with hqual
  by_cases hq : qual = []
  · simp [hq]
  · have hpos : 0 < (qual.map gradedCredits).sum := by
      apply List.sum_pos
      · intro x hx
        rcases List.mem_map.mp hx with ⟨s, hsq, rfl⟩
        have hmem := List.mem_of_mem_filter hsq
        have hqs := List.of_mem_filter hsq
        simp only [Bool.and_eq_true, decide_eq_true_eq] at hqs
        exact lt_of_le_of_ne (gradedCredits_nonneg s (h s hmem)) (Ne.symm hqs.2)
      · simpa using hq
    simp [hq, ne_of_gt hpos]

/-- Witness for claim C1 (amended) on the counterexample's semesters: the CGPA
equals the graded-credit-weighted spec formula there. -/
theorem claim_C1_amended_witness :
    calculateCGPA [c1semA, c1semB] = specCGPAgraded [c1semA, c1semB] := by
  apply claim_C1_amended
  intro s hs
  fin_cases hs <;> intro c hc <;> fin_cases hc <;> norm_num [c1semA, c1semB]

/-- Counterexample to claim C2 as stated: on a session with CGPA 7 over 1
credit, target 8 over 3 remaining credits, the closed form is `25/3` but the
returned `requiredGPA` is the two-decimal rounding `8.33`. -/
theorem claim_C2_counterexample :
    closedFormRequiredGPA c2cexSession 8 3 = 25/3
    ∧ (calculateTargetGPA c2cexSession 8 3).requiredGPA = 833/100
    ∧ (833/100 : ℚ) ≠ 25/3 := by
  refine ⟨?_, ?_, by norm_num⟩
  · norm_num [closedFormRequiredGPA, calculateCGPA, semesterAccum, sessionCreditsCompleted,
      getSemesterCredits, c2cexSession, calculateGPAacc, gpaStep]
  · norm_num [calculateTargetGPA, calculateCGPA, semesterAccum, sessionCreditsCompleted,
      getSemesterCredits, c2cexSession, jsOr, roundForDisplay2, jsRound,
      calculateGPAacc, gpaStep]

/-- Claim C2 (amended): for remaining credits `> 0`, `calculateTargetGPA`
returns `requiredGPA` equal to the closed form
`(targetCGPA*(creditsCompleted+remainingCredits) - currentCGPA*creditsCompleted)
/ remainingCredits` rounded to two decimals (JS `Math.round`, halves up), with
`feasible` computed from the unrounded closed form as `0 ≤ requiredGPA ≤
scaleMax`; on the concrete scenario (current CGPA 7.5 over 60 credits, target
8.0 over 20 remaining, scale 10) it returns `requiredGPA = 9.5`,
`feasible = true` and the "very challenging" message tier. -/
theorem claim_C2_amended (session : Session) (t r : ℚ) (hr : 0 < r) :
    (calculateTargetGPA session t r).requiredGPA
        = roundForDisplay2 (closedFormRequiredGPA session t r)
    ∧ ((calculateTargetGPA session t r).feasible = true
        ↔ 0 ≤ closedFormRequiredGPA session t r
          ∧ closedFormRequiredGPA session t r ≤ jsOr session.metadata.scale 10)
    ∧ (calculateTargetGPA c2demoSession 8 20).requiredGPA = 19/2
    ∧ (calculateTargetGPA c2demoSession 8 20).feasible = true
    ∧ (calculateTargetGPA c2demoSession 8 20).messageTier = TargetTier.veryChallenging := by
  refine ⟨?_, ?_, ?_, ?_, ?_⟩
  · simp only [calculateTargetGPA, closedFormRequiredGPA, jsOr_zero, if_pos hr]
  · simp only [calculateTargetGPA, closedFormRequiredGPA, jsOr_zero, if_pos hr,
      decide_eq_true_eq]
    exact and_comm
  · norm_num [calculateTargetGPA, calculateCGPA, semesterAccum, sessionCreditsCompleted,
      getSemesterCredits, c2demoSession, jsOr, roundForDisplay2, jsRound,
      calculateGPAacc, gpaStep]
  · norm_num [calculateTargetGPA, calculateCGPA, semesterAccum, sessionCreditsCompleted,
      getSemesterCredits, c2demoSession, jsOr, calculateGPAacc, gpaStep]
  · norm_num [calculateTargetGPA, calculateCGPA, semesterAccum, sessionCreditsCompleted,
      getSemesterCredits, c2demoSession, jsOr, calculateGPAacc, gpaStep]

/-- Witness for claim C2 (amended) at the spec's concrete scenario session with
target 8 over 20 remaining credits. -/
theorem claim_C2_amended_witness :
    (calculateTargetGPA c2demoSession 8 20).requiredGPA
        = roundForDisplay2 (closedFormRequiredGPA c2demoSession 8 20)
    ∧ ((calculateTargetGPA c2demoSession 8 20).feasible = true
        ↔ 0 ≤ closedFormRequiredGPA c2demoSession 8 20
          ∧ closedFormRequiredGPA c2demoSession 8 20 ≤ jsOr c2demoSession.metadata.scale 10)
    ∧ (calculateTargetGPA c2demoSession 8 20).requiredGPA = 19/2
    ∧ (calculateTargetGPA c2demoSession 8 20).feasible = true
    ∧ (calculateTargetGPA c2demoSession 8 20).messageTier = TargetTier.veryChallenging :=
  claim_C2_amended c2demoSession 8 20 (by norm_num)

/-- Counterexample to claim C3 as stated: the two sessions hold the same three
manual-entry semesters (orders 3, 1, 2 with GPAs 10, 5, 5) as permutations of
each other, yet `calculateStatistics` classifies one as declining and the other
as improving — the trend follows list position, not the `order` field. -/
theorem claim_C3_counterexample :
    List.Perm [c3semA, c3semB, c3semC] [c3semB, c3semC, c3semA]
    ∧ (calculateStatistics { semesters := [c3semA, c3semB, c3semC] }).trendDirection
        = Trend.declining
    ∧ (calculateStatistics { semesters := [c3semB, c3semC, c3semA] }).trendDirection
        = Trend.improving
    ∧ Trend.declining ≠ Trend.improving := by
  refine ⟨?_, ?_, ?_, by simp⟩
  · exact @List.perm_append_comm _ [c3semA] [c3semB, c3semC]
  · norm_num [calculateStatistics, statsStep, getSemesterGPA, getSemesterCredits,
      distStep, trendOf, c3semA, c3semB, c3semC]
  · norm_num [calculateStatistics, statsStep, getSemesterGPA, getSemesterCredits,
      distStep, trendOf, c3semA, c3semB, c3semC]

/-- Claim C3 (amended): the trend direction returned by `calculateStatistics`
is computed from the effective semester GPAs in the order the semesters appear
in the session's list (not sorted by the `order` field): unknown with fewer
than 2 GPA data points, otherwise from the last 3 values split into a first
half of `floor(n/2)` values and a second half of the remainder, improving /
declining when the second half's mean exceeds / falls below the first half's
mean by more than 0.2, else stable.  Permuting the list can change the result. -/
theorem claim_C3_amended (session : Session) :
    (calculateStatistics session).trendDirection
      = specTrend (session.semesters.filterMap (fun s => (getSemesterGPA s).gpa)) := by
  unfold calculateStatistics
  dsimp only
  rw [statsFold_gpas session.semesters ⟨0, 0, [], [], 0⟩, List.nil_append]
  exact trendOf_eq_specTrend _

/-- Claim C6: for a semester with a non-empty course list, `getSemesterGPA` and
`getSemesterCredits` are independent of the `manualGPA`/`manualCredits` fields —
two runs differing only in the manual fields return identical results. -/
theorem claim_C6 (s : Semester) (g₁ g₂ c₁ c₂ : Option ℚ) (h : s.courses ≠ []) :
    getSemesterGPA { s with manualGPA := g₁, manualCredits := c₁ }
      = getSemesterGPA { s with manualGPA := g₂, manualCredits := c₂ }
    ∧ getSemesterCredits { s with manualGPA := g₁, manualCredits := c₁ }
      = getSemesterCredits { s with manualGPA := g₂, manualCredits := c₂ } := by
  unfold getSemesterGPA getSemesterCredits
  simp [h]

/-- Claim C7: for both built-in templates and every marks value inside some
mapping's `[minMarks, maxMarks]` interval, converting the marks to a letter
grade and back to points returns that mapping's grade point. -/
theorem claim_C7 (m : ℚ) (mp : GradeMapping) :
    (mp ∈ BIT_MESRA_10_POINT.mappings → mp.minMarks ≤ m → m ≤ mp.maxMarks →
      convertGradeToPoints (convertMarksToGrade m BIT_MESRA_10_POINT)
        BIT_MESRA_10_POINT.scale (some BIT_MESRA_10_POINT) = mp.gradePoint)
    ∧ (mp ∈ STANDARD_4_POINT.mappings → mp.minMarks ≤ m → m ≤ mp.maxMarks →
      convertGradeToPoints (convertMarksToGrade m STANDARD_4_POINT)
        STANDARD_4_POINT.scale (some STANDARD_4_POINT) = mp.gradePoint) := by
  constructor <;> intro hmem h1 h2
  · unfold convertMarksToGrade
    rw [findMapping_eq BIT_MESRA_10_POINT.mappings mp m hmem h1 h2 bit10_disjoint]
    simp only [BIT_MESRA_10_POINT, List.mem_cons, List.not_mem_nil, or_false] at hmem
    rcases hmem with rfl | rfl | rfl | rfl | rfl | rfl | rfl <;> decide
  · unfold convertMarksToGrade
    rw [findMapping_eq STANDARD_4_POINT.mappings mp m hmem h1 h2 std4_disjoint]
    simp only [STANDARD_4_POINT, List.mem_cons, List.not_mem_nil, or_false] at hmem
    rcases hmem with rfl | rfl | rfl | rfl | rfl | rfl | rfl | rfl | rfl | rfl | rfl | rfl <;>
      rfl

/-- Witness for claim C7: marks of 85 on the 10-point template earn the letter
"A" worth 9 points; marks of 85 on the 4-point template earn "B+" worth 3.3. -/
theorem claim_C7_witness :
    convertGradeToPoints (convertMarksToGrade 85 BIT_MESRA_10_POINT)
        BIT_MESRA_10_POINT.scale (some BIT_MESRA_10_POINT) = 9
    ∧ convertGradeToPoints (convertMarksToGrade 85 STANDARD_4_POINT)
        STANDARD_4_POINT.scale (some STANDARD_4_POINT) = 33/10 :=
  ⟨(claim_C7 85 ⟨81, 90, "A", 9⟩).1 (by simp [BIT_MESRA_10_POINT]) (by norm_num) (by norm_num),
   (claim_C7 85 ⟨83, 86, "B+", 33/10⟩).2 (by simp [STANDARD_4_POINT]) (by norm_num)
     (by norm_num)⟩

/-- Claim C4: on the 10-point scale (the solver's default, the only scale with
a template), for every semester with at least one ungraded course and every
target GPA, each per-course recommendation reverse-maps the required average
grade point `(targetGPA*totalCredits - currentPoints)/remainingCredits` to the
minimum-marks mapping of the template whose grade point is at least that value,
capping at `marksNeeded = 100` with a "+"-suffixed top grade when the
requirement exceeds the top mapping's grade point, and flags course-level
infeasibility exactly when `marksNeeded` would exceed 100.  (Credits are
non-negative per the data model's schema; when the ungraded credits are zero
the guarded requirement is 0, matching rational division by zero.) -/
theorem claim_C4 (semester : Semester) (targetGPA : ℚ)
    (hun : coursesNeedingGradesOf semester ≠ [])
    (hcr : ∀ c ∈ semester.courses, 0 ≤ c.credits) :
    (calculateIntraSemesterTarget semester targetGPA 10).recommendations
      = (coursesNeedingGradesOf semester).map
          (specIntraRec
            ((targetGPA * intraTotalCredits semester - intraCurrentPoints semester)
              / intraRemainingCredits semester)) := by
  unfold calculateIntraSemesterTarget
  rw [if_neg hun]
  dsimp only
  rw [intraAvg_eq semester targetGPA hcr]
  exact List.map_congr_left (fun c _ => recommendFor_eq_specIntraRec _ c)

/-- Witness for claim C4: a semester with one ungraded four-credit course and
target 8 requires average grade point 8, recommending 71 marks ("B"). -/
theorem claim_C4_witness :
    (calculateIntraSemesterTarget c4demoSemester 8 10).recommendations
        = (coursesNeedingGradesOf c4demoSemester).map
            (specIntraRec
              ((8 * intraTotalCredits c4demoSemester - intraCurrentPoints c4demoSemester)
                / intraRemainingCredits c4demoSemester))
    ∧ (calculateIntraSemesterTarget c4demoSemester 8 10).recommendations
        = [⟨"X", none, 71, "B", true⟩] := by
  have h := claim_C4 c4demoSemester 8
    (by simp [coursesNeedingGradesOf, c4demoSemester])
    (by intro c hc; fin_cases hc; norm_num)
  refine ⟨h, ?_⟩
  rw [h]
  have hreq : (8 * intraTotalCredits c4demoSemester - intraCurrentPoints c4demoSemester)
      / intraRemainingCredits c4demoSemester = 8 := by
    norm_num [intraTotalCredits, intraCurrentPoints, intraRemainingCredits,
      coursesWithMarksOf, coursesNeedingGradesOf, c4demoSemester, List.filter_cons]
  rw [hreq]
  norm_num [coursesNeedingGradesOf, c4demoSemester, List.filter_cons, specIntraRec,
    BIT_MESRA_10_POINT, minByMinMarks, jsRound, CourseRecommendation.mk.injEq]

/-- Claim C10: every per-course recommendation produced by
`calculateIntraSemesterTarget` has `feasible = true` — `marksNeeded` is a
template mapping's `minMarks`, the cap 100, or 0 without a template, so the
course-level infeasible outcome is unreachable. -/
theorem claim_C10 (semester : Semester) (t scale : ℚ) (rec : CourseRecommendation)
    (h : rec ∈ (calculateIntraSemesterTarget semester t scale).recommendations) :
    rec.feasible = true := by
  unfold calculateIntraSemesterTarget at h
  by_cases hng : coursesNeedingGradesOf semester = []
  · rw [if_pos hng] at h
    simp at h
  · rw [if_neg hng] at h
    dsimp only at h
    rcases List.mem_map.mp h with ⟨c, _, rfl⟩
    unfold recommendFor templateForScale
    by_cases hs : scale = 10
    · rw [if_pos hs]
      dsimp only
      by_cases hcap :
          (BIT_MESRA_10_POINT.mappings.headI).gradePoint < intraAvgGPANeeded semester t
      · rw [if_pos hcap]
        norm_num
      · rw [if_neg hcap]
        refine decide_eq_true (fold_marks_le _ _ _ (by norm_num) ?_)
        intro m hm
        simp only [BIT_MESRA_10_POINT, List.mem_cons, List.not_mem_nil, or_false] at hm
        rcases hm with rfl | rfl | rfl | rfl | rfl | rfl | rfl <;> norm_num
    · rw [if_neg hs]
      norm_num

/-- Witness for claim C10 at a concrete input: the single recommendation for a
four-credit ungraded course on the 4-point scale (no template) is feasible. -/
theorem claim_C10_witness :
    (CourseRecommendation.mk "X" none 0 "N/A" true).feasible = true := by
  apply claim_C10 c4demoSemester 8 4
  have : (calculateIntraSemesterTarget c4demoSemester 8 4).recommendations
      = [⟨"X", none, 0, "N/A", true⟩] := by
    norm_num [calculateIntraSemesterTarget, coursesNeedingGradesOf, coursesWithMarksOf,
      c4demoSemester, List.filter_cons, recommendFor, templateForScale, jsRound,
      CourseRecommendation.mk.injEq]
  rw [this]
  exact List.mem_singleton.mpr rfl

/-- Claim C9: when no course of any semester has a (truthy) letter grade but at
least one semester has `manualGPA` set, `getGradeDistribution` returns a single
synthetic "Manual Entry" bucket; otherwise it returns one bucket per distinct
course-level letter grade carrying that grade's occurrence count. -/
theorem claim_C9 (session : Session) :
    ((∀ s ∈ session.semesters, ∀ c ∈ s.courses, truthyGrade c = none) →
      (∃ s ∈ session.semesters, s.manualGPA ≠ none) →
      ∃ n : ℕ, getGradeDistribution session = [⟨"Manual Entry", 1, n⟩])
    ∧ (¬ ((∀ s ∈ session.semesters, ∀ c ∈ s.courses, truthyGrade c = none)
          ∧ ∃ s ∈ session.semesters, s.manualGPA ≠ none) →
      ∀ g : String,
        (getGradeDistribution session).filter (fun p => p.name == g)
          = if countGradeIn session.semesters g = 0 then []
            else [⟨g, (countGradeIn session.semesters g : ℚ),
                   countGradeIn session.semesters g⟩]) := by
  constructor
  · intro hall hman
    have hdist : gradeCountsOf session.semesters = [] := gradeCounts_all_none _ hall
    have hany : session.semesters.any (fun s => s.manualGPA.isSome) = true := by
      rcases hman with ⟨s, hs, hm⟩
      exact List.any_eq_true.mpr ⟨s, hs, Option.isSome_iff_ne_none.mpr hm⟩
    refine ⟨(session.semesters.filter
      (fun s => match s.manualGPA with | some g => decide (g ≠ 0) | none => false)).length, ?_⟩
    unfold getGradeDistribution
    dsimp only
    rw [if_pos ⟨hdist, hany⟩]
  · intro hnot g
    have hcond : ¬ (gradeCountsOf session.semesters = []
        ∧ session.semesters.any (fun s => s.manualGPA.isSome) = true) := by
      rintro ⟨hd, ha⟩
      apply hnot
      refine ⟨all_none_of_gradeCounts_nil _ hd, ?_⟩
      rcases List.any_eq_true.mp ha with ⟨s, hs, hm⟩
      exact ⟨s, hs, Option.isSome_iff_ne_none.mp hm⟩
    unfold getGradeDistribution
    dsimp only
    rw [if_neg hcond]
    have hperm := List.mergeSort_perm
      ((gradeCountsOf session.semesters).map
        (fun kv => ChartDataPoint.mk kv.1 (kv.2 : ℚ) kv.2))
      (fun a b => decide (b.value ≤ a.value))
    have hfp := hperm.filter (fun p => p.name == g)
    have hmf : ((gradeCountsOf session.semesters).map
          (fun kv => ChartDataPoint.mk kv.1 (kv.2 : ℚ) kv.2)).filter
            (fun p => p.name == g)
        = ((gradeCountsOf session.semesters).filter (fun kv => kv.1 == g)).map
            (fun kv => ChartDataPoint.mk kv.1 (kv.2 : ℚ) kv.2) := by
      rw [List.filter_map]
      rfl
    rw [filter_key_of_wf _ (distWF_gradeCountsOf _) g, keyCount_gradeCountsOf] at hmf
    rw [hmf] at hfp
    by_cases hz : countGradeIn session.semesters g = 0
    · rw [if_pos hz]
      simp only [if_pos hz, List.map_nil] at hfp
      exact hfp.eq_nil
    · rw [if_neg hz]
      simp only [if_neg hz, List.map_cons, List.map_nil] at hfp
      exact List.perm_singleton.mp hfp

/-- Witness for claim C9: a manual-only session yields the synthetic bucket,
and a session with one "A"-graded course yields the "A" bucket of count 1. -/
theorem claim_C9_witness :
    (∃ n : ℕ, getGradeDistribution c9manualSession = [⟨"Manual Entry", 1, n⟩])
    ∧ (getGradeDistribution c9gradedSession).filter (fun p => p.name == "A")
        = if countGradeIn c9gradedSession.semesters "A" = 0 then []
          else [⟨"A", (countGradeIn c9gradedSession.semesters "A" : ℚ),
            countGradeIn c9gradedSession.semesters "A"⟩] := by
  constructor
  · exact (claim_C9 c9manualSession).1
      (by intro s hs c hc; fin_cases hs; fin_cases hc)
      (by exact ⟨_, List.mem_singleton.mpr rfl, by simp [c9manualSession]⟩)
  · exact (claim_C9 c9gradedSession).2
      (by
        rintro ⟨hall, -⟩
        have := hall _ (List.mem_singleton.mpr rfl) _ (List.mem_singleton.mpr rfl)
        simp [truthyGrade, c9gradedSession] at this)
      "A"

/-- Witness for claim C6: a one-course semester with clashing manual overrides. -/
theorem claim_C6_witness :
    getSemesterGPA { gradedDemoSemester with manualGPA := some 1, manualCredits := some 99 }
      = getSemesterGPA { gradedDemoSemester with manualGPA := none, manualCredits := none }
    ∧ getSemesterCredits { gradedDemoSemester with manualGPA := some 1, manualCredits := some 99 }
      = getSemesterCredits { gradedDemoSemester with manualGPA := none, manualCredits := none } :=
  claim_C6 gradedDemoSemester (some 1) none (some 99) none (by simp [gradedDemoSemester])

/-- Claim C8: both target solvers guard their closed-form division — with zero
remaining credits the cross-semester solver returns a required GPA of `0`, and
with zero remaining (ungraded) credits the intra-semester solver's required
average grade point is `0`; neither division is reached. -/
theorem claim_C8 :
    (∀ (session : Session) (t r : ℚ), r = 0 →
      (calculateTargetGPA session t r).requiredGPA = 0)
    ∧ (∀ (semester : Semester) (t : ℚ), intraRemainingCredits semester = 0 →
      intraAvgGPANeeded semester t = 0) := by
  constructor
  · intro session t r hr
    subst hr
    norm_num [calculateTargetGPA, roundForDisplay2, jsRound, jsOr]
  · intro semester t hrem
    simp [intraAvgGPANeeded, hrem]

/-- Witness for claim C8: the empty session with zero remaining credits, and an
all-graded semester (zero ungraded credits). -/
theorem claim_C8_witness :
    (calculateTargetGPA { semesters := [] } 8 0).requiredGPA = 0
    ∧ intraAvgGPANeeded gradedDemoSemester 9 = 0 := by
  refine ⟨claim_C8.1 { semesters := [] } 8 0 rfl, claim_C8.2 _ 9 ?_⟩
  simp [intraRemainingCredits, coursesNeedingGradesOf, gradedDemoSemester]

end CGPA
